import Mathlib

/-!
Shallow embedding of the route handlers of server-production.js
(Real_Estate_Intelligence repository).

Conventions of the embedding:
* A JSON value is `JsonVal`; a JSON object body is an association list
  `JsObj` where, as in JavaScript object literals, a later binding of a key
  overrides an earlier one (`jsGet` returns the last binding).  A key whose
  value would be `undefined` in JavaScript is simply absent from the list,
  matching `JSON.stringify` / `res.json`, which drop such keys.
* `FieldValue.serverTimestamp()` is the sentinel `JsonVal.sentinelTs`; when a
  document is committed to the store the sentinel resolves to the numeric
  server time `Env.serverTime`.
* Strings standing for absent-or-present request fields are `Option String`;
  the JavaScript truthiness test `if (x)` on such a field is `truthy`, which
  is false exactly for an absent field and for the empty string.
* External collaborator calls (Firestore reads/writes, Vertex model call,
  Cloud Storage save) can fail; each potential failure point has a Boolean
  flag in `Env` selecting the catch branch of the corresponding try/catch in
  the source.  The generative model itself is the oracle `Env.gen`.
* Each handler returns the `HttpResponse` it sends plus an effects record
  describing the collaborator calls it issued, so that claims about absent
  side effects are statable.
-/

namespace REI

/-- JSON values as produced by the handlers; `sentinelTs` stands for the
Firestore server-timestamp sentinel. Numbers are rationals. -/
inductive JsonVal where
  | str : String → JsonVal
  | num : Rat → JsonVal
  | bool : Bool → JsonVal
  | arr : List JsonVal → JsonVal
  | obj : List (String × JsonVal) → JsonVal
  | sentinelTs : JsonVal

/-- A JSON object body: an association list of fields. -/
abbrev JsObj := List (String × JsonVal)

/-- Field lookup with JavaScript object-literal semantics: the LAST binding
of a key wins (later spread entries override earlier ones). -/
def jsGet : JsObj → String → Option JsonVal
  | [], _ => none
  | (k, v) :: rest, key =>
    match jsGet rest key with
    | some w => some w
    | none => if k = key then some v else none

/-- JavaScript truthiness of an optional string field: `undefined` and the
empty string are falsy. -/
def truthy : Option String → Bool
  | none => false
  | some s => !(s == "")

/-- An HTTP response: status code and JSON body. -/
structure HttpResponse where
  status : Nat
  body : JsObj

/-- A document of the Firestore `memory` collection.  Documents come from two
writers: `POST /api/memory/store` (fields type/content/tags/metadata plus
timestamp, relevanceScore, accessCount) and the interaction logger of
`POST /api/ai/query` (fields type/query/response/model plus timestamp,
relevanceScore, contextUsed — and NO content field).  Optional fields model
absence; `tags` absent is modelled as `[]` (array-contains matches neither).
`timestamp` is the resolved numeric server time used by `orderBy`. -/
structure MemDoc where
  id : String
  type : Option String
  content : Option String
  tags : List String
  metadata : JsObj
  query : Option String
  response : Option String
  model : Option String
  timestamp : Nat
  relevanceScore : Option Rat
  accessCount : Option Nat
  contextUsed : Option Bool

/-- A document of the Firestore `properties` collection: assigned id plus its
fields. -/
structure PropDoc where
  id : String
  fields : JsObj

/-- The state of the external collaborators and of the nondeterministic
inputs (timestamps, assigned ids, error messages), plus one failure flag per
collaborator call site that the source wraps in a try/catch. -/
structure Env where
  memoryDocs : List MemDoc
  propDocs : List PropDoc
  memFetchFails : Bool
  memAddFails : Bool
  searchFails : Bool
  gen : String → String → String
  genFails : Bool
  genErrMsg : String
  errMsg : String
  saveFails : Bool
  listFails : Bool
  sheetsFails : Bool
  driveFails : Bool
  propsGetFails : Bool
  propAddFails : Bool
  propsCount : Nat
  memCount : Nat
  propsCountFails : Bool
  memCountFails : Bool
  statusFirestoreFails : Bool
  statusStorageFails : Bool
  newId : String
  serverTime : Nat
  now : String
  nodeEnv : String
  bucketName : String
  spreadsheetId : String
  uptimeV : Rat
  memUsage : JsObj
  sheetRows : List (List String)
  storageFiles : List JsObj
  driveFilesL : List JsObj

/-- Descending-timestamp comparison handed to the sort, mirroring
`orderBy("timestamp", "desc")`. -/
def tsDesc (a b : MemDoc) : Bool := b.timestamp ≤ a.timestamp

/-- The five most recent memory documents:
`collection("memory").orderBy("timestamp", "desc").limit(5)`. -/
def memTop5 (docs : List MemDoc) : List MemDoc :=
  (docs.mergeSort tsDesc).take 5

/-- `memoriesUsed.map(m => m.content).join("\n\n")`: Array.prototype.join
renders an undefined element as the empty string. -/
def contentsJoin : List MemDoc → String
  | [] => ""
  | [d] => d.content.getD ""
  | d :: rest => d.content.getD "" ++ "\n\n" ++ contentsJoin rest

/-- Request body of `POST /api/ai/query`. -/
structure AiQueryReq where
  query : Option String
  useMemory : Option Bool
  model : Option String

/-- Collaborator calls issued by the `POST /api/ai/query` handler:
whether the memory fetch was issued, the prompt handed to
`generateContent` (if the model was invoked), and the interaction document
committed to the `memory` collection (if the post-hoc store succeeded). -/
structure AiEffects where
  fetchIssued : Bool
  promptUsed : Option String
  interactionStored : Option MemDoc

/-- The `POST /api/ai/query` handler (lines 164-241 of
server-production.js). -/
def apiAiQuery (env : Env) (req : AiQueryReq) : HttpResponse × AiEffects :=
  if !(truthy req.query) then
    (⟨400, [("success", .bool false), ("error", .str "Query parameter required")]⟩,
     ⟨false, none, none⟩)
  else
    let q := req.query.getD ""
    let useMem := req.useMemory.getD true
    let memoriesUsed : List MemDoc :=
      if useMem && !env.memFetchFails then memTop5 env.memoryDocs else []
    let context := contentsJoin memoriesUsed
    let modelName := req.model.getD "gemini-2.0-flash-exp"
    let prompt :=
      if !(context == "") then
        "Context from memory:\n" ++ context ++ "\n\nUser query: " ++ q
      else q
    if env.genFails then
      (⟨500, [("success", .bool false), ("error", .str env.genErrMsg),
              ("timestamp", .str env.now)]⟩,
       ⟨useMem, some prompt, none⟩)
    else
      let response := env.gen modelName prompt
      let stored : Option MemDoc :=
        if env.memAddFails then none else some
          { id := env.newId, type := some "interaction", content := none,
            tags := [], metadata := [], query := some q,
            response := some response, model := some modelName,
            timestamp := env.serverTime, relevanceScore := some 1,
            accessCount := none, contextUsed := some (!(context == "")) }
      (⟨200, [("success", .bool true),
              ("data", .obj [("query", .str q), ("response", .str response),
                             ("model", .str modelName),
                             ("contextUsed", .bool (!(context == ""))),
                             ("memoriesReferenced", .num (memoriesUsed.length : Rat)),
                             ("timestamp", .str env.now)])]⟩,
       ⟨useMem, some prompt, stored⟩)

/-- Request body of `POST /api/memory/store`. -/
structure StoreReq where
  type : Option String
  content : Option String
  tags : Option (List String)
  metadata : Option JsObj

/-- Effects of `POST /api/memory/store`: the document committed to the
`memory` collection, if any. -/
structure StoreEffects where
  stored : Option MemDoc

/-- The JSON rendering of the `memoryEntry` object literal built by the
store handler (timestamp still the sentinel, as spread into the response). -/
def memoryEntryJson (t c : String) (tags : List String) (md : JsObj) : JsObj :=
  [("type", .str t), ("content", .str c),
   ("tags", .arr (tags.map .str)), ("metadata", .obj md),
   ("timestamp", .sentinelTs), ("relevanceScore", .num 1),
   ("accessCount", .num 0)]

/-- The `POST /api/memory/store` handler (lines 246-278 of
server-production.js). -/
def apiMemoryStore (env : Env) (req : StoreReq) : HttpResponse × StoreEffects :=
  if !(truthy req.type) || !(truthy req.content) then
    (⟨400, [("success", .bool false), ("error", .str "Type and content required")]⟩,
     ⟨none⟩)
  else if env.memAddFails then
    (⟨500, [("success", .bool false), ("error", .str env.errMsg)]⟩, ⟨none⟩)
  else
    let t := req.type.getD ""
    let c := req.content.getD ""
    let tags := req.tags.getD []
    let md := req.metadata.getD []
    let stored : MemDoc :=
      { id := env.newId, type := some t, content := some c, tags := tags,
        metadata := md, query := none, response := none, model := none,
        timestamp := env.serverTime, relevanceScore := some 1,
        accessCount := some 0, contextUsed := none }
    (⟨200, [("success", .bool true),
            ("data", .obj (("id", .str env.newId) :: memoryEntryJson t c tags md)),
            ("timestamp", .str env.now)]⟩,
     ⟨some stored⟩)

/-- Query parameters of `GET /api/memory/search`; `limit` is the parsed
numeric value of the limit parameter (default 10 when absent). -/
structure SearchParams where
  type : Option String
  tags : Option String
  limit : Option Nat

/-- The composed Firestore query filter of the search handler: an equality
filter on `type` when the parameter is truthy, conjoined with an
`array-contains` filter of the WHOLE `tags` parameter string when truthy. -/
def searchMatches (p : SearchParams) (d : MemDoc) : Bool :=
  (if truthy p.type then d.type == p.type else true) &&
  (if truthy p.tags then (p.tags.getD "") ∈ d.tags else true)

/-- The document list produced by the search handler before rendering:
filter, order by descending timestamp, take `limit`. -/
def apiMemorySearchDocs (env : Env) (p : SearchParams) : List MemDoc :=
  (((env.memoryDocs.filter (searchMatches p)).mergeSort tsDesc).take (p.limit.getD 10))

/-- Rendering of `{ id: doc.id, ...doc.data() }` for a memory document:
absent optional fields are dropped, as in Firestore document data. -/
def memDocJson (d : MemDoc) : JsonVal :=
  .obj ([("id", .str d.id)]
    ++ (d.type.map fun t => ("type", JsonVal.str t)).toList
    ++ (d.content.map fun c => ("content", JsonVal.str c)).toList
    ++ [("tags", .arr (d.tags.map .str)), ("metadata", .obj d.metadata)]
    ++ (d.query.map fun q => ("query", JsonVal.str q)).toList
    ++ (d.response.map fun r => ("response", JsonVal.str r)).toList
    ++ (d.model.map fun m => ("model", JsonVal.str m)).toList
    ++ [("timestamp", .num (d.timestamp : Rat))]
    ++ (d.relevanceScore.map fun s => ("relevanceScore", JsonVal.num s)).toList
    ++ (d.accessCount.map fun n => ("accessCount", JsonVal.num (n : Rat))).toList
    ++ (d.contextUsed.map fun b => ("contextUsed", JsonVal.bool b)).toList)

/-- The `GET /api/memory/search` handler (lines 280-308 of
server-production.js). -/
def apiMemorySearch (env : Env) (p : SearchParams) : HttpResponse :=
  if env.searchFails then
    ⟨500, [("success", .bool false), ("error", .str env.errMsg)]⟩
  else
    let memories := apiMemorySearchDocs env p
    ⟨200, [("success", .bool true),
           ("data", .obj [("memories", .arr (memories.map memDocJson)),
                          ("count", .num (memories.length : Rat))]),
           ("timestamp", .str env.now)]⟩

/-- Request body of `POST /api/storage/upload`. -/
structure UploadReq where
  fileName : Option String
  content : Option String
  metadata : Option JsObj

/-- Effects of `POST /api/storage/upload`: the object saved to the bucket
(name and content), if the save call was issued and succeeded. -/
structure UploadEffects where
  saved : Option (String × String)

/-- The `POST /api/storage/upload` handler (lines 313-345 of
server-production.js). -/
def apiStorageUpload (env : Env) (req : UploadReq) : HttpResponse × UploadEffects :=
  if !(truthy req.fileName) || !(truthy req.content) then
    (⟨400, [("success", .bool false), ("error", .str "fileName and content required")]⟩,
     ⟨none⟩)
  else if env.saveFails then
    (⟨500, [("success", .bool false), ("error", .str env.errMsg)]⟩, ⟨none⟩)
  else
    let fn := req.fileName.getD ""
    (⟨200, [("success", .bool true),
            ("data", .obj [("fileName", .str fn),
                           ("bucket", .str env.bucketName),
                           ("url", .str ("gs://" ++ env.bucketName ++ "/" ++ fn))]),
            ("timestamp", .str env.now)]⟩,
     ⟨some (fn, req.content.getD "")⟩)

/-- The `GET /api/storage/files` handler (lines 347-372 of
server-production.js). -/
def apiStorageFiles (env : Env) : HttpResponse :=
  if env.listFails then
    ⟨500, [("success", .bool false), ("error", .str env.errMsg)]⟩
  else
    ⟨200, [("success", .bool true),
           ("data", .obj [("files", .arr (env.storageFiles.map .obj)),
                          ("bucket", .str env.bucketName),
                          ("count", .num (env.storageFiles.length : Rat))]),
           ("timestamp", .str env.now)]⟩

/-- The `GET /api/sheets/investor-data` handler (lines 377-400 of
server-production.js): first row as headers, rest as records. -/
def apiSheetsInvestorData (env : Env) : HttpResponse :=
  if env.sheetsFails then
    ⟨500, [("success", .bool false), ("error", .str env.errMsg)]⟩
  else
    let rows := env.sheetRows
    ⟨200, [("success", .bool true),
           ("data", .obj [("totalRows", .num (rows.length : Rat)),
                          ("headers", .arr ((rows.headD []).map .str)),
                          ("records", .arr ((rows.drop 1).map fun r => .arr (r.map .str))),
                          ("spreadsheetId", .str env.spreadsheetId)]),
           ("timestamp", .str env.now)]⟩

/-- The `GET /api/drive/files` handler (lines 405-424 of
server-production.js). -/
def apiDriveFiles (env : Env) : HttpResponse :=
  if env.driveFails then
    ⟨500, [("success", .bool false), ("error", .str env.errMsg)]⟩
  else
    ⟨200, [("success", .bool true),
           ("data", .obj [("files", .arr (env.driveFilesL.map .obj)),
                          ("count", .num (env.driveFilesL.length : Rat))]),
           ("timestamp", .str env.now)]⟩

/-- Query parameters of `GET /api/firestore/properties`. -/
structure PropsGetParams where
  limit : Option Nat
  city : Option String
  zipCode : Option String

/-- A string-equality Firestore filter on a field of a property document. -/
def propFieldEq (d : PropDoc) (field val : String) : Bool :=
  match jsGet d.fields field with
  | some (.str s) => s == val
  | _ => false

/-- The `GET /api/firestore/properties` handler (lines 429-454 of
server-production.js): equality filters on city/zipCode when truthy, then
`limit` (default 50), no ordering. -/
def apiFirestorePropsGet (env : Env) (p : PropsGetParams) : HttpResponse :=
  if env.propsGetFails then
    ⟨500, [("success", .bool false), ("error", .str env.errMsg)]⟩
  else
    let filtered := env.propDocs.filter fun d =>
      (if truthy p.city then propFieldEq d "city" (p.city.getD "") else true) &&
      (if truthy p.zipCode then propFieldEq d "zipCode" (p.zipCode.getD "") else true)
    let properties := filtered.take (p.limit.getD 50)
    ⟨200, [("success", .bool true),
           ("data", .obj [("properties",
                           .arr (properties.map fun d => .obj (("id", .str d.id) :: d.fields))),
                          ("count", .num (properties.length : Rat))]),
           ("timestamp", .str env.now)]⟩

/-- The stored document of `POST /api/firestore/properties`: the request
body spread first, then the two server-assigned sentinel timestamps, which
therefore override caller-supplied bindings of the same keys. -/
def propertyData (body : JsObj) : JsObj :=
  body ++ [("timestamp", .sentinelTs), ("updatedAt", .sentinelTs)]

/-- Effects of `POST /api/firestore/properties`: the document committed to
the `properties` collection, if the add succeeded. -/
structure PropAddEffects where
  added : Option JsObj

/-- The `POST /api/firestore/properties` handler (lines 456-475 of
server-production.js). -/
def apiFirestorePropsPost (env : Env) (body : JsObj) : HttpResponse × PropAddEffects :=
  if env.propAddFails then
    (⟨500, [("success", .bool false), ("error", .str env.errMsg)]⟩, ⟨none⟩)
  else
    (⟨200, [("success", .bool true),
            ("data", .obj (("id", .str env.newId) :: propertyData body)),
            ("timestamp", .str env.now)]⟩,
     ⟨some (propertyData body)⟩)

/-- The `GET /api/real-estate/overview` handler (lines 480-527 of
server-production.js): each count defaults to 0 when its aggregate call
fails; static placeholder metrics otherwise. -/
def apiRealEstateOverview (env : Env) : HttpResponse :=
  let totalProperties := if env.propsCountFails then 0 else env.propsCount
  let totalMemories := if env.memCountFails then 0 else env.memCount
  ⟨200, [("success", .bool true),
         ("data", .obj [("totalProperties", .num (totalProperties : Rat)),
                        ("totalMemories", .num (totalMemories : Rat)),
                        ("activeLeads", .num 342),
                        ("hotDeals", .num 23),
                        ("marketScore", .num (17 / 2 : Rat)),
                        ("aiStatus", .obj [("vertexAI", .str "active"),
                                           ("firestore", .str "active"),
                                           ("cloudStorage", .str "active"),
                                           ("rag", .str "active"),
                                           ("googleSheets", .str "active"),
                                           ("googleDrive", .str "active")]),
                        ("systemHealth", .obj [("uptime", .num env.uptimeV),
                                               ("memory", .obj env.memUsage),
                                               ("environment", .str env.nodeEnv)])]),
         ("timestamp", .str env.now)]⟩

/-- The `GET /health` handler (lines 105-115 of server-production.js). -/
def healthHandler (env : Env) : HttpResponse :=
  ⟨200, [("status", .str "healthy"), ("timestamp", .str env.now),
         ("service", .str "Real Estate Intelligence"), ("version", .str "5.0.0"),
         ("uptime", .num env.uptimeV), ("memory", .obj env.memUsage),
         ("environment", .str env.nodeEnv)]⟩

/-- The `GET /api/status` handler (lines 117-159 of server-production.js):
probe failures are reported per component; the clients themselves are
non-null once startup has succeeded, so the truthiness checks on them
report active. -/
def apiStatus (env : Env) : HttpResponse :=
  ⟨200, [("status", .str "operational"), ("timestamp", .str env.now),
         ("components",
          .obj [("api", .str "healthy"),
                ("firestore", .str (if env.statusFirestoreFails then "error" else "active")),
                ("storage", .str (if env.statusStorageFails then "error" else "active")),
                ("vertexAI", .str "active"), ("sheets", .str "active"),
                ("drive", .str "active")]),
         ("config", .obj [("bucket", .str env.bucketName),
                          ("environment", .str env.nodeEnv)]),
         ("uptime", .num env.uptimeV)]⟩

/-- The global error-handling middleware (lines 532-540 of
server-production.js): the underlying message survives only when
`NODE_ENV` is exactly the development label. -/
def errorHandler (env : Env) (errMsg : String) : HttpResponse :=
  ⟨500, [("success", .bool false), ("error", .str "Internal server error")]
        ++ (if env.nodeEnv == "development" then [("message", .str errMsg)] else [])
        ++ [("timestamp", .str env.now)]⟩

/-- The 404 handler (lines 543-550 of server-production.js). -/
def notFoundHandler (env : Env) (path : String) : HttpResponse :=
  ⟨404, [("success", .bool false), ("error", .str "Endpoint not found"),
         ("path", .str path), ("timestamp", .str env.now)]⟩

/-- Lookup of a field inside the `data` object of a response body. -/
def dataField (b : JsObj) (k : String) : Option JsonVal :=
  match jsGet b "data" with
  | some (.obj o) => jsGet o k
  | _ => none

/-- The envelope invariant of the spec, relative to the `success` field:
when `success` is true, `data` is populated and `error` absent; when
`success` is false, `error` is populated and `data` absent. -/
def envelopeOk (b : JsObj) : Prop :=
  (jsGet b "success" = some (.bool true) →
     (jsGet b "data").isSome = true ∧ jsGet b "error" = none) ∧
  (jsGet b "success" = some (.bool false) →
     (jsGet b "error").isSome = true ∧ jsGet b "data" = none)

/-- Presence of a top-level `timestamp` field in a response body. -/
def hasTimestamp (b : JsObj) : Prop := (jsGet b "timestamp").isSome = true

/-- A baseline collaborator state for concrete evaluations: empty
collections, no failing calls, fixed fresh id and clock values. -/
def baseEnv : Env where
  memoryDocs := []
  propDocs := []
  memFetchFails := false
  memAddFails := false
  searchFails := false
  gen := fun _ p => "generated: " ++ p
  genFails := false
  genErrMsg := "model error"
  errMsg := "collaborator error"
  saveFails := false
  listFails := false
  sheetsFails := false
  driveFails := false
  propsGetFails := false
  propAddFails := false
  propsCount := 0
  memCount := 0
  propsCountFails := false
  memCountFails := false
  statusFirestoreFails := false
  statusStorageFails := false
  newId := "doc1"
  serverTime := 100
  now := "2026-01-01T00:00:00.000Z"
  nodeEnv := "production"
  bucketName := "real-estate-intelligence"
  spreadsheetId := "sheet1"
  uptimeV := 1
  memUsage := []
  sheetRows := []
  storageFiles := []
  driveFilesL := []

/-- Appending bindings on the right overrides earlier bindings of the same
keys and leaves the rest unchanged. -/
theorem jsGet_append (l m : JsObj) (k : String) :
    jsGet (l ++ m) k =
      match jsGet m k with
      | some v => some v
      | none => jsGet l k := by
  induction l with
  | nil =>
    simp only [List.nil_append, jsGet]
    cases jsGet m k <;> rfl
  | cons a rest ih =>
    obtain ⟨ka, va⟩ := a
    simp only [List.cons_append, jsGet, List.append_eq]
    rw [ih]
    cases h1 : jsGet m k <;> cases h2 : jsGet rest k <;> simp [h1, h2]

/-- If some member of the list has non-empty content, the joined context is
non-empty (with two or more members the separator alone already makes it
non-empty). -/
theorem contentsJoin_ne_empty {l : List MemDoc} {d : MemDoc}
    (hd : d ∈ l) (hc : d.content.getD "" ≠ "") : contentsJoin l ≠ "" := by
  match l with
  | [] => cases hd
  | [x] =>
    rcases List.mem_singleton.mp hd with rfl
    simpa [contentsJoin] using hc
  | x :: y :: rest =>
    intro heq
    have hlen := congrArg String.length heq
    simp only [contentsJoin, String.length_append] at hlen
    have h2 : ("\n\n" : String).length = 2 := rfl
    have h0 : ("" : String).length = 0 := rfl
    rw [h2, h0] at hlen
    omega

/-- Claim C4: for every request to POST /api/ai/query with useMemory false
(and a truthy query, so that the handler reaches the model call), no
memory-fetch collaborator call is issued and the prompt passed to the
generative model equals the raw query string with no context prefix. -/
theorem ai_query_no_memory_skips_fetch (env : Env) (req : AiQueryReq) (q : String)
    (hq : req.query = some q) (hqne : q ≠ "") (hm : req.useMemory = some false) :
    (apiAiQuery env req).2.fetchIssued = false ∧
    (apiAiQuery env req).2.promptUsed = some q := by
  cases hg : env.genFails <;>
    simp [apiAiQuery, hq, hm, hg, truthy, hqne, contentsJoin]

theorem ai_query_no_memory_skips_fetch_witness :
    (⟨some "hello", some false, none⟩ : AiQueryReq).query = some "hello" ∧
    ("hello" : String) ≠ "" ∧
    (apiAiQuery baseEnv ⟨some "hello", some false, none⟩).2.fetchIssued = false ∧
    (apiAiQuery baseEnv ⟨some "hello", some false, none⟩).2.promptUsed = some "hello" :=
  ⟨rfl, by decide,
   ai_query_no_memory_skips_fetch baseEnv ⟨some "hello", some false, none⟩ "hello"
     rfl (by decide) rfl⟩

/-- Claim C7: every GET /api/real-estate/overview response is a 200 success
envelope; a failing count aggregate defaults that count to 0 (the if on the
failure flag), and the static placeholder metrics are always present. -/
theorem overview_defaults_counts (env : Env) :
    (apiRealEstateOverview env).status = 200 ∧
    jsGet (apiRealEstateOverview env).body "success" = some (.bool true) ∧
    hasTimestamp (apiRealEstateOverview env).body ∧
    dataField (apiRealEstateOverview env).body "totalProperties"
      = some (.num (((if env.propsCountFails then 0 else env.propsCount) : Nat) : Rat)) ∧
    dataField (apiRealEstateOverview env).body "totalMemories"
      = some (.num (((if env.memCountFails then 0 else env.memCount) : Nat) : Rat)) ∧
    dataField (apiRealEstateOverview env).body "activeLeads" = some (.num 342) ∧
    dataField (apiRealEstateOverview env).body "hotDeals" = some (.num 23) ∧
    dataField (apiRealEstateOverview env).body "marketScore" = some (.num (17 / 2 : Rat)) := by
  refine ⟨rfl, ?_, ?_, ?_, ?_, ?_, ?_, ?_⟩ <;>
    simp [apiRealEstateOverview, jsGet, dataField, hasTimestamp]

/-- Claim C8: validation failures answer 400 before any collaborator call:
a missing query, a missing type or content, or a missing fileName or content
each yield a 400 response with no fetch issued, no model invocation, and no
record written or object saved. -/
theorem validation_400_before_calls :
    (∀ (env : Env) (req : AiQueryReq), req.query = none →
      (apiAiQuery env req).1.status = 400 ∧
      (apiAiQuery env req).2.fetchIssued = false ∧
      (apiAiQuery env req).2.promptUsed = none ∧
      (apiAiQuery env req).2.interactionStored = none) ∧
    (∀ (env : Env) (req : StoreReq), req.type = none ∨ req.content = none →
      (apiMemoryStore env req).1.status = 400 ∧
      (apiMemoryStore env req).2.stored = none) ∧
    (∀ (env : Env) (req : UploadReq), req.fileName = none ∨ req.content = none →
      (apiStorageUpload env req).1.status = 400 ∧
      (apiStorageUpload env req).2.saved = none) := by
  refine ⟨?_, ?_, ?_⟩
  · intro env req h
    simp [apiAiQuery, truthy, h]
  · intro env req h
    rcases h with h | h <;> simp [apiMemoryStore, truthy, h]
  · intro env req h
    rcases h with h | h <;> simp [apiStorageUpload, truthy, h]

theorem validation_400_before_calls_witness :
    (⟨none, none, none⟩ : AiQueryReq).query = none ∧
    ((apiAiQuery baseEnv ⟨none, none, none⟩).1.status = 400 ∧
     (apiAiQuery baseEnv ⟨none, none, none⟩).2.fetchIssued = false ∧
     (apiAiQuery baseEnv ⟨none, none, none⟩).2.promptUsed = none ∧
     (apiAiQuery baseEnv ⟨none, none, none⟩).2.interactionStored = none) :=
  ⟨rfl, validation_400_before_calls.1 baseEnv ⟨none, none, none⟩ rfl⟩

/-- Claim C9: POST /api/firestore/properties stores every caller field
unchanged except timestamp and updatedAt, which are overwritten with the
server-assigned sentinels even when the caller supplied values for them;
when the add succeeds the committed document is exactly this merged
object. -/
theorem props_post_overwrites_timestamps (env : Env) (body : JsObj) (k : String) :
    jsGet (propertyData body) "timestamp" = some .sentinelTs ∧
    jsGet (propertyData body) "updatedAt" = some .sentinelTs ∧
    (k ≠ "timestamp" → k ≠ "updatedAt" → jsGet (propertyData body) k = jsGet body k) ∧
    (env.propAddFails = false →
      (apiFirestorePropsPost env body).2.added = some (propertyData body)) := by
  refine ⟨?_, ?_, ?_, ?_⟩
  · rw [propertyData, jsGet_append]; rfl
  · rw [propertyData, jsGet_append]; rfl
  · intro h1 h2
    rw [propertyData, jsGet_append]
    have hnone : jsGet [("timestamp", JsonVal.sentinelTs), ("updatedAt", JsonVal.sentinelTs)] k
        = none := by
      simp [jsGet, Ne.symm h1, Ne.symm h2]
    simp [hnone]
  · intro h; simp [apiFirestorePropsPost, h]

theorem props_post_overwrites_timestamps_witness :
    (("city" : String) ≠ "timestamp" ∧ ("city" : String) ≠ "updatedAt" ∧
      baseEnv.propAddFails = false) ∧
    jsGet (propertyData [("timestamp", JsonVal.str "caller"), ("city", JsonVal.str "Austin")]) "city"
      = jsGet [("timestamp", JsonVal.str "caller"), ("city", JsonVal.str "Austin")] "city" ∧
    (apiFirestorePropsPost baseEnv
        [("timestamp", JsonVal.str "caller"), ("city", JsonVal.str "Austin")]).2.added
      = some (propertyData [("timestamp", JsonVal.str "caller"), ("city", JsonVal.str "Austin")]) := by
  refine ⟨⟨by decide, by decide, rfl⟩, ?_, ?_⟩
  · exact (props_post_overwrites_timestamps baseEnv
      [("timestamp", JsonVal.str "caller"), ("city", JsonVal.str "Austin")] "city").2.2.1
      (by decide) (by decide)
  · exact (props_post_overwrites_timestamps baseEnv
      [("timestamp", JsonVal.str "caller"), ("city", JsonVal.str "Austin")] "city").2.2.2 rfl

/-- Claim C2: for every POST /api/memory/store body whose type and content
are set (formalised as the test the handler itself applies: JS-truthy,
present and non-empty), when the insert call succeeds the handler commits a
record with the server timestamp, relevance score 1.0 and access count 0,
and the response data echoes type, content, tags and metadata and carries
the non-empty collaborator-assigned id and relevanceScore 1.0. -/
theorem memory_store_inserts_and_echoes (env : Env) (req : StoreReq) (t c : String)
    (ht : req.type = some t) (htne : t ≠ "")
    (hc : req.content = some c) (hcne : c ≠ "")
    (hadd : env.memAddFails = false) (hid : env.newId ≠ "") :
    (apiMemoryStore env req).1.status = 200 ∧
    (apiMemoryStore env req).2.stored = some
      { id := env.newId, type := some t, content := some c,
        tags := req.tags.getD [], metadata := req.metadata.getD [],
        query := none, response := none, model := none,
        timestamp := env.serverTime, relevanceScore := some 1,
        accessCount := some 0, contextUsed := none } ∧
    dataField (apiMemoryStore env req).1.body "id" = some (.str env.newId) ∧
    env.newId ≠ "" ∧
    dataField (apiMemoryStore env req).1.body "type" = some (.str t) ∧
    dataField (apiMemoryStore env req).1.body "content" = some (.str c) ∧
    dataField (apiMemoryStore env req).1.body "tags"
      = some (.arr ((req.tags.getD []).map .str)) ∧
    dataField (apiMemoryStore env req).1.body "metadata"
      = some (.obj (req.metadata.getD [])) ∧
    dataField (apiMemoryStore env req).1.body "relevanceScore" = some (.num 1) := by
  refine ⟨?_, ?_, ?_, hid, ?_, ?_, ?_, ?_, ?_⟩ <;>
    simp [apiMemoryStore, truthy, ht, htne, hc, hcne, hadd, dataField, jsGet,
      memoryEntryJson]

theorem memory_store_inserts_and_echoes_witness :
    ((⟨some "note", some "hello world", none, none⟩ : StoreReq).type = some "note" ∧
     ("note" : String) ≠ "" ∧
     (⟨some "note", some "hello world", none, none⟩ : StoreReq).content = some "hello world" ∧
     ("hello world" : String) ≠ "" ∧
     baseEnv.memAddFails = false ∧ baseEnv.newId ≠ "") ∧
    (apiMemoryStore baseEnv ⟨some "note", some "hello world", none, none⟩).1.status = 200 ∧
    dataField (apiMemoryStore baseEnv
        ⟨some "note", some "hello world", none, none⟩).1.body "relevanceScore"
      = some (.num 1) := by
  refine ⟨⟨rfl, by decide, rfl, by decide, rfl, by decide⟩, ?_, ?_⟩
  · exact (memory_store_inserts_and_echoes baseEnv ⟨some "note", some "hello world", none, none⟩
      "note" "hello world" rfl (by decide) rfl (by decide) rfl (by decide)).1
  · exact (memory_store_inserts_and_echoes baseEnv ⟨some "note", some "hello world", none, none⟩
      "note" "hello world" rfl (by decide) rfl (by decide) rfl
      (by decide)).2.2.2.2.2.2.2.2

/-- Claim C5: GET /api/memory/search with a given (truthy) type parameter X
and numeric limit parameter N applies the type equality filter (and the
tags membership filter when that parameter is given), orders descending by
timestamp, and returns at most N records, each with type X; the 200
response carries exactly these records. -/
theorem memory_search_filters_sorts_limits (env : Env) (p : SearchParams)
    (x : String) (n : Nat)
    (hx : p.type = some x) (hxne : x ≠ "") (hn : p.limit = some n)
    (hok : env.searchFails = false) :
    (apiMemorySearchDocs env p).length ≤ n ∧
    (∀ d ∈ apiMemorySearchDocs env p, d.type = some x) ∧
    (∀ d ∈ apiMemorySearchDocs env p, truthy p.tags = true → p.tags.getD "" ∈ d.tags) ∧
    (apiMemorySearchDocs env p).Pairwise (fun a b => b.timestamp ≤ a.timestamp) ∧
    (apiMemorySearch env p).status = 200 ∧
    jsGet (apiMemorySearch env p).body "success" = some (.bool true) ∧
    dataField (apiMemorySearch env p).body "memories"
      = some (.arr ((apiMemorySearchDocs env p).map memDocJson)) := by
  have hmatch : ∀ d ∈ apiMemorySearchDocs env p, searchMatches p d = true := by
    intro d hd
    simp only [apiMemorySearchDocs] at hd
    exact (List.mem_filter.mp (List.mem_mergeSort.mp (List.take_subset _ _ hd))).2
  refine ⟨?_, ?_, ?_, ?_, ?_, ?_, ?_⟩
  · simp only [apiMemorySearchDocs, hn, Option.getD_some]
    exact List.length_take_le _ _
  · intro d hd
    have h2 := hmatch d hd
    simp [searchMatches, truthy, hx, hxne] at h2
    exact h2.1
  · intro d hd htag
    have h2 := hmatch d hd
    simp only [searchMatches, htag, if_true, Bool.and_eq_true, decide_eq_true_iff] at h2
    exact h2.2
  · have hsorted := @List.sorted_mergeSort MemDoc tsDesc
      (by intro a b c hab hbc; simp only [tsDesc, decide_eq_true_iff] at *; omega)
      (by intro a b; simp only [tsDesc, Bool.or_eq_true, decide_eq_true_iff]; omega)
      (env.memoryDocs.filter (searchMatches p))
    have hsorted2 := hsorted.imp
      (fun hab => by simpa only [tsDesc, decide_eq_true_iff] using hab)
    simp only [apiMemorySearchDocs]
    exact List.Pairwise.sublist (List.take_sublist _ _) hsorted2
  · simp [apiMemorySearch, hok]
  · simp [apiMemorySearch, hok, jsGet]
  · simp [apiMemorySearch, hok, dataField, jsGet]

/-- A memory record of type "note", used by concrete witnesses. -/
def noteDoc (i : String) (ts : Nat) (tg : List String) : MemDoc :=
  { id := i, type := some "note", content := some "text", tags := tg, metadata := [],
    query := none, response := none, model := none, timestamp := ts,
    relevanceScore := some 1, accessCount := some 0, contextUsed := none }

/-- Collaborator state with two note records, for the search witness. -/
def searchEnvW : Env :=
  { baseEnv with memoryDocs := [noteDoc "m1" 5 ["a"], noteDoc "m2" 9 ["a", "b"]] }

theorem memory_search_filters_sorts_limits_witness :
    (searchEnvW.searchFails = false ∧ ("note" : String) ≠ "") ∧
    (apiMemorySearchDocs searchEnvW ⟨some "note", none, some 1⟩).length ≤ 1 ∧
    (∀ d ∈ apiMemorySearchDocs searchEnvW ⟨some "note", none, some 1⟩,
      d.type = some "note") := by
  refine ⟨⟨rfl, by decide⟩, ?_, ?_⟩
  · exact (memory_search_filters_sorts_limits searchEnvW ⟨some "note", none, some 1⟩
      "note" 1 rfl (by decide) rfl rfl).1
  · exact (memory_search_filters_sorts_limits searchEnvW ⟨some "note", none, some 1⟩
      "note" 1 rfl (by decide) rfl rfl).2.1

/-- Claim C10: the tags query parameter of GET /api/memory/search is used
as one single membership value: every returned record contains the whole
parameter string in its tags array, and a record lacking that exact string
is never returned — so a single request cannot filter by several tags. -/
theorem memory_search_tags_whole_string (env : Env) (p : SearchParams) (t : String)
    (ht : p.tags = some t) (htne : t ≠ "") :
    (∀ d ∈ apiMemorySearchDocs env p, t ∈ d.tags) ∧
    (∀ d, t ∉ d.tags → d ∉ apiMemorySearchDocs env p) := by
  have key : ∀ d ∈ apiMemorySearchDocs env p, t ∈ d.tags := by
    intro d hd
    simp only [apiMemorySearchDocs] at hd
    have h2 := (List.mem_filter.mp (List.mem_mergeSort.mp (List.take_subset _ _ hd))).2
    simp [searchMatches, truthy, ht, htne] at h2
    exact h2.2
  exact ⟨key, fun d hnot hd => hnot (key d hd)⟩

/-- Collaborator state with one record tagged with the two separate tags
"a" and "b", for the tags-parameter witness. -/
def multiTagEnvW : Env := { baseEnv with memoryDocs := [noteDoc "m1" 5 ["a", "b"]] }

theorem memory_search_tags_whole_string_witness :
    (("a,b" : String) ≠ "" ∧ "a,b" ∉ (noteDoc "m1" 5 ["a", "b"]).tags) ∧
    (noteDoc "m1" 5 ["a", "b"]) ∉ apiMemorySearchDocs multiTagEnvW ⟨none, some "a,b", none⟩ := by
  refine ⟨⟨by decide, by decide⟩, ?_⟩
  exact (memory_search_tags_whole_string multiTagEnvW ⟨none, some "a,b", none⟩
    "a,b" rfl (by decide)).2 _ (by decide)

/-- The memory state after a single AI interaction has been logged by the
ai-query route itself: one record of type "interaction" with NO content
field (the logger stores query/response/model, not content). -/
def interactionDoc : MemDoc :=
  { id := "m0", type := some "interaction", content := none, tags := [],
    metadata := [], query := some "q0", response := some "r0",
    model := some "gemini-2.0-flash-exp", timestamp := 50,
    relevanceScore := some 1, accessCount := none, contextUsed := some false }

/-- Collaborator state holding exactly that one interaction record. -/
def c3EnvW : Env := { baseEnv with memoryDocs := [interactionDoc] }

/-- Claim C3 counterexample: with exactly one prior memory record — the
interaction record the ai-query route itself logs, which has no content
field — a useMemory query fetches one record (memoriesReferenced is 1,
which is min(5,1)) yet answers contextUsed false, because the join of one
undefined content is the empty string. -/
theorem ai_query_context_used_counterexample :
    c3EnvW.memFetchFails = false ∧ c3EnvW.genFails = false ∧
    c3EnvW.memoryDocs.length = 1 ∧
    dataField (apiAiQuery c3EnvW ⟨some "hi", some true, none⟩).1.body "memoriesReferenced"
      = some (.num 1) ∧
    dataField (apiAiQuery c3EnvW ⟨some "hi", some true, none⟩).1.body "contextUsed"
      = some (.bool false) := by
  refine ⟨rfl, rfl, rfl, ?_, ?_⟩ <;>
    simp [apiAiQuery, truthy, dataField, jsGet, memTop5, contentsJoin,
      List.mergeSort, interactionDoc, c3EnvW, baseEnv]

/-- Claim C3 amended: with useMemory true, a truthy query, a successful
fetch and a successful model call, memoriesReferenced equals
min(5, total number of memory records); contextUsed reports whether the
joined context is non-empty, and in particular is true as soon as at least
one of the fetched records has non-empty content (records written by
POST /api/memory/store always do; the interaction records logged by the
ai-query route itself have none, so a lone such record yields
contextUsed false). -/
theorem ai_query_memories_referenced (env : Env) (req : AiQueryReq) (q : String)
    (hq : req.query = some q) (hqne : q ≠ "")
    (hm : req.useMemory.getD true = true)
    (hff : env.memFetchFails = false) (hgf : env.genFails = false) :
    dataField (apiAiQuery env req).1.body "memoriesReferenced"
      = some (.num ((min 5 env.memoryDocs.length : Nat) : Rat)) ∧
    dataField (apiAiQuery env req).1.body "contextUsed"
      = some (.bool (!(contentsJoin (memTop5 env.memoryDocs) == ""))) ∧
    ((∃ d ∈ memTop5 env.memoryDocs, d.content.getD "" ≠ "") →
      dataField (apiAiQuery env req).1.body "contextUsed" = some (.bool true)) := by
  have hlen : (memTop5 env.memoryDocs).length = min 5 env.memoryDocs.length := by
    simp [memTop5, List.length_take, List.length_mergeSort]
  refine ⟨?_, ?_, ?_⟩
  · simp [apiAiQuery, truthy, hq, hqne, hm, hff, hgf, dataField, jsGet, hlen]
  · simp [apiAiQuery, truthy, hq, hqne, hm, hff, hgf, dataField, jsGet]
  · rintro ⟨d, hd, hc⟩
    have hne : (contentsJoin (memTop5 env.memoryDocs) == "") = false :=
      beq_eq_false_iff_ne.mpr (contentsJoin_ne_empty hd hc)
    simp [apiAiQuery, truthy, hq, hqne, hm, hff, hgf, dataField, jsGet, hne]

/-- Collaborator state holding one store-written record (non-empty
content), for the amended-claim witness. -/
def c3GoodEnvW : Env := { baseEnv with memoryDocs := [noteDoc "m1" 5 []] }

theorem ai_query_memories_referenced_witness :
    (c3GoodEnvW.memFetchFails = false ∧ c3GoodEnvW.genFails = false ∧
      (∃ d ∈ memTop5 c3GoodEnvW.memoryDocs, d.content.getD "" ≠ "")) ∧
    dataField (apiAiQuery c3GoodEnvW ⟨some "hi", some true, none⟩).1.body "contextUsed"
      = some (.bool true) := by
  have hmem : memTop5 c3GoodEnvW.memoryDocs = [noteDoc "m1" 5 []] := by
    simp [memTop5, c3GoodEnvW, List.mergeSort]
  refine ⟨⟨rfl, rfl, ⟨noteDoc "m1" 5 [], by rw [hmem]; exact List.mem_singleton.mpr rfl,
    by simp [noteDoc]⟩⟩, ?_⟩
  exact (ai_query_memories_referenced c3GoodEnvW ⟨some "hi", some true, none⟩ "hi"
    rfl (by decide) rfl rfl rfl).2.2
    ⟨noteDoc "m1" 5 [], by rw [hmem]; exact List.mem_singleton.mpr rfl, by simp [noteDoc]⟩

/-- Claim C6 counterexample: with runtime label "test" — a non-production
value — the global fallback suppresses the underlying message, refuting the
claim that every non-production label includes it. -/
theorem error_message_nonproduction_counterexample :
    ({ baseEnv with nodeEnv := "test" } : Env).nodeEnv ≠ "production" ∧
    (errorHandler { baseEnv with nodeEnv := "test" } "boom").status = 500 ∧
    jsGet (errorHandler { baseEnv with nodeEnv := "test" } "boom").body "message" = none :=
  ⟨by decide, rfl, rfl⟩

/-- Claim C6 amended: every error reaching the global fallback produces a
500 envelope with success false, the generic error text and a timestamp;
the underlying message is included exactly when the runtime environment
label is the development value, and suppressed for every other label,
production or not. -/
theorem error_handler_development_only (env : Env) (msg : String) :
    (errorHandler env msg).status = 500 ∧
    jsGet (errorHandler env msg).body "success" = some (.bool false) ∧
    jsGet (errorHandler env msg).body "error" = some (.str "Internal server error") ∧
    hasTimestamp (errorHandler env msg).body ∧
    jsGet (errorHandler env msg).body "message"
      = (if env.nodeEnv = "development" then some (.str msg) else none) := by
  refine ⟨rfl, ?_, ?_, ?_, ?_⟩ <;>
    cases h : env.nodeEnv == "development" <;>
      simp_all [errorHandler, jsGet, hasTimestamp]

/-- Claim C1 counterexample: the 400 validation response of
POST /api/ai/query carries success false and an error but NO timestamp
field, refuting the claim that every route response contains one. -/
theorem envelope_timestamp_counterexample :
    (apiAiQuery baseEnv ⟨none, none, none⟩).1.status = 400 ∧
    jsGet (apiAiQuery baseEnv ⟨none, none, none⟩).1.body "success" = some (.bool false) ∧
    (jsGet (apiAiQuery baseEnv ⟨none, none, none⟩).1.body "error").isSome = true ∧
    jsGet (apiAiQuery baseEnv ⟨none, none, none⟩).1.body "timestamp" = none :=
  ⟨rfl, rfl, rfl, rfl⟩

/-- Claim C1 amended: every response of every route populates exactly one
of data/error according to its success value; but the timestamp field is
not universal: it is present exactly on the 200 responses of the
memory/search, memory/store, storage, sheets, drive, firestore and
overview routes, on the ai-query 500 response, on the global fallback 500,
the 404, /health and /api/status — while the 400 validation responses, the
catch 500 responses of all routes other than ai-query, and the TOP LEVEL of
the ai-query 200 response (whose timestamp sits inside data) lack it. -/
theorem envelope_invariant_amended :
    (∀ (env : Env) (req : AiQueryReq), envelopeOk (apiAiQuery env req).1.body) ∧
    (∀ (env : Env) (req : StoreReq), envelopeOk (apiMemoryStore env req).1.body) ∧
    (∀ (env : Env) (p : SearchParams), envelopeOk (apiMemorySearch env p).body) ∧
    (∀ (env : Env) (req : UploadReq), envelopeOk (apiStorageUpload env req).1.body) ∧
    (∀ (env : Env), envelopeOk (apiStorageFiles env).body) ∧
    (∀ (env : Env), envelopeOk (apiSheetsInvestorData env).body) ∧
    (∀ (env : Env), envelopeOk (apiDriveFiles env).body) ∧
    (∀ (env : Env) (p : PropsGetParams), envelopeOk (apiFirestorePropsGet env p).body) ∧
    (∀ (env : Env) (b : JsObj), envelopeOk (apiFirestorePropsPost env b).1.body) ∧
    (∀ (env : Env), envelopeOk (apiRealEstateOverview env).body) ∧
    (∀ (env : Env) (msg : String), envelopeOk (errorHandler env msg).body) ∧
    (∀ (env : Env) (path : String), envelopeOk (notFoundHandler env path).body) ∧
    (∀ (env : Env) (req : StoreReq),
      (apiMemoryStore env req).1.status = 200 ↔ hasTimestamp (apiMemoryStore env req).1.body) ∧
    (∀ (env : Env) (p : SearchParams),
      (apiMemorySearch env p).status = 200 ↔ hasTimestamp (apiMemorySearch env p).body) ∧
    (∀ (env : Env) (req : UploadReq),
      (apiStorageUpload env req).1.status = 200 ↔ hasTimestamp (apiStorageUpload env req).1.body) ∧
    (∀ (env : Env),
      (apiStorageFiles env).status = 200 ↔ hasTimestamp (apiStorageFiles env).body) ∧
    (∀ (env : Env),
      (apiSheetsInvestorData env).status = 200 ↔ hasTimestamp (apiSheetsInvestorData env).body) ∧
    (∀ (env : Env),
      (apiDriveFiles env).status = 200 ↔ hasTimestamp (apiDriveFiles env).body) ∧
    (∀ (env : Env) (p : PropsGetParams),
      (apiFirestorePropsGet env p).status = 200 ↔ hasTimestamp (apiFirestorePropsGet env p).body) ∧
    (∀ (env : Env) (b : JsObj),
      (apiFirestorePropsPost env b).1.status = 200 ↔
        hasTimestamp (apiFirestorePropsPost env b).1.body) ∧
    (∀ (env : Env) (req : AiQueryReq),
      (apiAiQuery env req).1.status = 400 → ¬ hasTimestamp (apiAiQuery env req).1.body) ∧
    (∀ (env : Env) (req : AiQueryReq),
      (apiAiQuery env req).1.status = 500 → hasTimestamp (apiAiQuery env req).1.body) ∧
    (∀ (env : Env) (req : AiQueryReq),
      (apiAiQuery env req).1.status = 200 → ¬ hasTimestamp (apiAiQuery env req).1.body) ∧
    (∀ (env : Env), hasTimestamp (apiRealEstateOverview env).body) ∧
    (∀ (env : Env) (msg : String), hasTimestamp (errorHandler env msg).body) ∧
    (∀ (env : Env) (path : String), hasTimestamp (notFoundHandler env path).body) ∧
    (∀ (env : Env), hasTimestamp (healthHandler env).body) ∧
    (∀ (env : Env), hasTimestamp (apiStatus env).body) := by
  refine ⟨?_, ?_, ?_, ?_, ?_, ?_, ?_, ?_, ?_, ?_, ?_, ?_, ?_, ?_, ?_, ?_, ?_, ?_,
    ?_, ?_, ?_, ?_, ?_, ?_, ?_, ?_, ?_, ?_⟩
  · intro env req
    cases h1 : truthy req.query <;> cases h2 : env.genFails <;>
      simp [apiAiQuery, envelopeOk, jsGet, h1, h2]
  · intro env req
    unfold apiMemoryStore
    split_ifs <;> simp [envelopeOk, jsGet]
  · intro env p
    unfold apiMemorySearch
    split_ifs <;> simp [envelopeOk, jsGet]
  · intro env req
    unfold apiStorageUpload
    split_ifs <;> simp [envelopeOk, jsGet]
  · intro env
    unfold apiStorageFiles
    split_ifs <;> simp [envelopeOk, jsGet]
  · intro env
    unfold apiSheetsInvestorData
    split_ifs <;> simp [envelopeOk, jsGet]
  · intro env
    unfold apiDriveFiles
    split_ifs <;> simp [envelopeOk, jsGet]
  · intro env p
    unfold apiFirestorePropsGet
    split_ifs <;> simp [envelopeOk, jsGet]
  · intro env b
    unfold apiFirestorePropsPost
    split_ifs <;> simp [envelopeOk, jsGet]
  · intro env
    simp [apiRealEstateOverview, envelopeOk, jsGet]
  · intro env msg
    cases h : env.nodeEnv == "development" <;>
      simp [errorHandler, envelopeOk, jsGet, h]
  · intro env path
    simp [notFoundHandler, envelopeOk, jsGet]
  · intro env req
    unfold apiMemoryStore
    split_ifs <;> simp [hasTimestamp, jsGet]
  · intro env p
    unfold apiMemorySearch
    split_ifs <;> simp [hasTimestamp, jsGet]
  · intro env req
    unfold apiStorageUpload
    split_ifs <;> simp [hasTimestamp, jsGet]
  · intro env
    unfold apiStorageFiles
    split_ifs <;> simp [hasTimestamp, jsGet]
  · intro env
    unfold apiSheetsInvestorData
    split_ifs <;> simp [hasTimestamp, jsGet]
  · intro env
    unfold apiDriveFiles
    split_ifs <;> simp [hasTimestamp, jsGet]
  · intro env p
    unfold apiFirestorePropsGet
    split_ifs <;> simp [hasTimestamp, jsGet]
  · intro env b
    unfold apiFirestorePropsPost
    split_ifs <;> simp [hasTimestamp, jsGet]
  · intro env req
    cases h1 : truthy req.query <;> cases h2 : env.genFails <;>
      simp [apiAiQuery, hasTimestamp, jsGet, h1, h2]
  · intro env req
    cases h1 : truthy req.query <;> cases h2 : env.genFails <;>
      simp [apiAiQuery, hasTimestamp, jsGet, h1, h2]
  · intro env req
    cases h1 : truthy req.query <;> cases h2 : env.genFails <;>
      simp [apiAiQuery, hasTimestamp, jsGet, h1, h2]
  · intro env
    simp [apiRealEstateOverview, hasTimestamp, jsGet]
  · intro env msg
    cases h : env.nodeEnv == "development" <;>
      simp [errorHandler, hasTimestamp, jsGet, h]
  · intro env path
    simp [notFoundHandler, hasTimestamp, jsGet]
  · intro env
    simp [healthHandler, hasTimestamp, jsGet]
  · intro env
    simp [apiStatus, hasTimestamp, jsGet]

theorem envelope_invariant_amended_witness :
    jsGet (apiAiQuery baseEnv ⟨none, none, none⟩).1.body "success" = some (.bool false) ∧
    ((jsGet (apiAiQuery baseEnv ⟨none, none, none⟩).1.body "error").isSome = true ∧
      jsGet (apiAiQuery baseEnv ⟨none, none, none⟩).1.body "data" = none) :=
  ⟨rfl, (envelope_invariant_amended.1 baseEnv ⟨none, none, none⟩).2 rfl⟩

end REI
